import Mathlib

/-!
Verification development for the `artefact` repository (a polite crawler and
tag-canonicalization resolver). The Python source under `src/artefact/` is
shallowly embedded below: pure functions become Lean functions, the mutable
resolver state is threaded explicitly, network and clock effects are recorded
as explicit traces, and Python exceptions are modelled with `Except`/`PyError`.
-/

set_option autoImplicit false

/-- Python exception classes that the embedded code can raise. -/
inductive PyError where
  | typeError
  | runtimeError
  | valueError
  | indexError
  | attributeError
deriving DecidableEq

/-- Parsed JSON values, as produced by `json.load` and consumed by `json.dump`
(only the shapes that can appear in this codebase). An object is an ordered
association list, mirroring the insertion order of a Python dict. -/
inductive Json where
  | null
  | bool (b : Bool)
  | num (n : Int)
  | str (s : String)
  | arr (elems : List Json)
  | obj (fields : List (String × Json))

/-- Python `value is None` test on a JSON value. -/
def Json.isNull : Json → Bool
  | .null => true
  | _ => false

/-- Python truthiness of a JSON value (used by `if tag.canonical:`). -/
def Json.truthy : Json → Bool
  | .null => false
  | .bool b => b
  | .num n => n != 0
  | .str s => s != ""
  | .arr xs => !xs.isEmpty
  | .obj fs => !fs.isEmpty

/-- Lookup in an ordered dict: value of the first binding of `k`. -/
def dictGet {α : Type} (d : List (String × α)) (k : String) : Option α :=
  (d.find? (fun kv => kv.1 == k)).map Prod.snd

/-- Python `d[k] = v`: replace the existing binding in place, else append. -/
def dictSet {α : Type} : List (String × α) → String → α → List (String × α)
  | [], k, v => [(k, v)]
  | (k1, v1) :: rest, k, v =>
      if k1 == k then (k1, v) :: rest else (k1, v1) :: dictSet rest k v

/-- Python `d.setdefault(k, dflt)`: returns the stored value and the updated
dict (unchanged when the key is already present). -/
def dictSetdefault {α : Type} (d : List (String × α)) (k : String) (dflt : α) :
    α × List (String × α) :=
  match dictGet d k with
  | some v => (v, d)
  | none => (dflt, d ++ [(k, dflt)])

/-- Python `s.replace(c, r)` for a single-character pattern `c`: every
occurrence of the character is replaced by `r`, left to right. -/
def replaceChar (c : Char) (r : List Char) : List Char → List Char
  | [] => []
  | x :: xs => if x = c then r ++ replaceChar c r xs else x :: replaceChar c r xs

/-- utils.tag_escape: escapes characters AO3 requires to be non-literal, with
`.replace` applied for `.`, `#`, `?`, `/` in that order (each pattern is a
single character, so `str.replace` is the character-wise map above; the
replacement strings contain none of the later pattern characters). -/
def tag_escape (tag : String) : String :=
  String.mk (replaceChar '/' "*s*".data
    (replaceChar '?' "*q*".data
      (replaceChar '#' "*h*".data
        (replaceChar '.' "*d*".data tag.data))))

/-- The Tag record (types.py, class Tag). The dataclass declares `name : str`
and `type : TagType` without default values and `common`/`canonical` with a
default of None. Dataclasses perform no runtime type checking, so `type`,
`common` and `canonical` hold whatever value a caller (in particular the JSON
cache loader) passes; they are therefore modelled as raw `Json` values, with
`Json.null` standing for Python None. -/
structure Tag where
  name : String
  type : Json
  common : Json := Json.null
  canonical : Json := Json.null

/-- The keyword parameters accepted by the generated `Tag.__init__`. -/
def tagFieldNames : List String := ["name", "type", "common", "canonical"]

/-- The dataclass constructor call `Tag(**kwargs)`. A keyword outside the
field list raises TypeError, as does a missing `name` or `type` (both fields
have no default). Modelling boundary: `name` is fixed to JSON strings — the
only values that reach this constructor from this codebase are string names
(resolver call sites) or JSON-file values, and a non-string `name` never
occurs in any behaviour settled below. -/
def Tag.fromKwargs (kwargs : List (String × Json)) : Except PyError Tag :=
  if kwargs.any (fun kv => !(tagFieldNames.contains kv.1)) then
    Except.error PyError.typeError
  else
    match dictGet kwargs "name", dictGet kwargs "type" with
    | some (Json.str n), some ty =>
        Except.ok { name := n, type := ty,
                    common := (dictGet kwargs "common").getD Json.null,
                    canonical := (dictGet kwargs "canonical").getD Json.null }
    | _, _ => Except.error PyError.typeError

/-- TagResolver.__init__ cache loading (core.py lines 61-63): given the parsed
JSON content of the configured cache file, builds
`{key: Tag(**value) for key, value in raw_tags.items()}`. Calling `.items()`
on a non-object raises AttributeError; `Tag(**value)` with a non-object value
raises TypeError. -/
def TagResolver.loadCache (j : Json) : Except PyError (List (String × Tag)) :=
  match j with
  | Json.obj items =>
      items.mapM (fun kv =>
        match kv.2 with
        | Json.obj kwargs => (Tag.fromKwargs kwargs).map (fun t => (kv.1, t))
        | _ => Except.error PyError.typeError)
  | _ => Except.error PyError.attributeError

/-- One iteration of the body of the save loop (core.py lines 107-111):
`tags[tag.name] = tag.common` when `common is not None`, then
`if tag.canonical: canon_map[tag.name] = tag.canonical.name`. In any cache
state the code can actually build, `canonical` holds a raw JSON value loaded
from the cache file (the code path that would store a Tag object in it is
unreachable, see `TagResolver.resolve` below), so a truthy `canonical` raises
AttributeError at the `.name` attribute access. -/
def TagResolver.saveStep (acc : List (String × Json) × List (String × Json))
    (t : Tag) : Except PyError (List (String × Json) × List (String × Json)) :=
  let tags := if t.common.isNull then acc.1 else dictSet acc.1 t.name t.common
  if t.canonical.truthy then Except.error PyError.attributeError
  else Except.ok (tags, acc.2)

/-- TagResolver.save (core.py lines 101-113): serializes the cache to the JSON
object `{"tags": tags, "canon_map": canon_map}` that is written to the target
file. The early return for an unconfigured path is handled at the session
level (see `Artefact.resolveTags`). -/
def TagResolver.save (cache : List (String × Tag)) : Except PyError Json := do
  let tc ← (cache.map Prod.snd).foldlM TagResolver.saveStep ([], [])
  Except.ok (Json.obj [("tags", Json.obj tc.1), ("canon_map", Json.obj tc.2)])

/-- The observations the resolver makes of a fetched tag page (core.py
lines 84-97): whether the selector `.tag .header .navigation.actions` matched,
the texts of the `.synonym .tags .tag` elements, and the text of the
`.tag .merger a.tag` element when present. -/
structure TagPage where
  navigationActions : Bool
  synonyms : List String
  merger : Option String

/-- The mutable state of a TagResolver: the `auto_resolve` flag and the
`_cache` dict from tag name to Tag record. -/
structure RState where
  autoResolve : Bool
  cache : List (String × Tag)

/-- TagResolver.get (core.py lines 71-75):
`tag = self._cache.setdefault(name, Tag(name=name))` followed by
`tag.type = tag_type`. The default argument `Tag(name=name)` is evaluated
before `setdefault` runs and omits the dataclass field `type`, which has no
default, so the call raises TypeError for every input. The unreachable rest of
the method is still modelled: the `tag.type = tag_type` assignment mutates the
object shared with the cache, hence the `dictSet`. Returns the result and the
state at exit. -/
def TagResolver.get (st : RState) (name : String) (tagType : Json) :
    Except PyError Tag × RState :=
  match Tag.fromKwargs [("name", Json.str name)] with
  | Except.error e => (Except.error e, st)
  | Except.ok dflt =>
      let td := dictSetdefault st.cache name dflt
      let tag := { td.1 with type := tagType }
      (Except.ok tag, { st with cache := dictSet td.2 name tag })

/-- TagResolver.resolve (core.py lines 77-99). The oracle maps a fetched path
to the page observations; the third component of the result is the trace of
paths fetched, in order. `fuel` bounds the merge-chain recursion of line 98
(the code has no cycle guard, so a fuel bound is needed for a total model);
`none` is returned when the fuel runs out.

Per-branch notes, all faithful to the source:
  * non-common branch (lines 84-85): the default `Tag(name=name, common=False)`
    omits the required field `type`, so TypeError is raised before
    `setdefault` runs;
  * common branch (line 89): `Tag(name=name, common=True)` likewise raises
    TypeError before the cache assignment happens;
  * synonym loop (lines 90-94): the first iteration calls `self.get(name)`
    with the required positional argument `tag_type` missing, raising
    TypeError before the body of `get` runs;
  * merger branch (lines 97-98): the recursive result is discarded and the
    local `tag` object is returned (even if the recursion rebinds the cache
    entry for `name`, the method returns the object bound at line 89). -/
def TagResolver.resolve (oracle : String → TagPage) :
    Nat → RState → String → Option (Except PyError Tag × RState × List String)
  | 0, _, _ => none
  | fuel+1, st, name =>
    let path := "/tags/" ++ tag_escape name
    let page := oracle path
    if !page.navigationActions then
      match Tag.fromKwargs [("name", Json.str name), ("common", Json.bool false)] with
      | Except.error e => some (Except.error e, st, [path])
      | Except.ok dflt =>
          let td := dictSetdefault st.cache name dflt
          some (Except.ok td.1, { st with cache := td.2 }, [path])
    else
      match Tag.fromKwargs [("name", Json.str name), ("common", Json.bool true)] with
      | Except.error e => some (Except.error e, st, [path])
      | Except.ok tag =>
          let st1 : RState := { st with cache := dictSet st.cache name tag }
          match page.synonyms with
          | _ :: _ => some (Except.error PyError.typeError, st1, [path])
          | [] =>
            match page.merger with
            | none => some (Except.ok tag, st1, [path])
            | some m =>
              match TagResolver.resolve oracle fuel st1 m with
              | none => none
              | some (Except.error e, st2, fs) => some (Except.error e, st2, path :: fs)
              | some (Except.ok _, st2, fs) => some (Except.ok tag, st2, path :: fs)

/-- TagResolver.__call__ (core.py lines 65-69): `get`, then `resolve` when the
tag is unresolved (`common is None`) and auto-resolve mode is active. -/
def TagResolver.call (oracle : String → TagPage) (fuel : Nat) (st : RState)
    (name : String) (tagType : Json) :
    Option (Except PyError Tag × RState × List String) :=
  match TagResolver.get st name tagType with
  | (Except.error e, st1) => some (Except.error e, st1, [])
  | (Except.ok tag, st1) =>
      if tag.common.isNull && st1.autoResolve then
        TagResolver.resolve oracle fuel st1 name
      else some (Except.ok tag, st1, [])

theorem Tag.fromKwargs_name_only (n : String) :
    Tag.fromKwargs [("name", Json.str n)] = Except.error PyError.typeError := rfl

theorem Tag.fromKwargs_name_common (n : String) (b : Bool) :
    Tag.fromKwargs [("name", Json.str n), ("common", Json.bool b)] =
      Except.error PyError.typeError := rfl

/-- Every call to `TagResolver.get` raises TypeError (the default argument
`Tag(name=name)` lacks the required `type` field) and leaves the state
unchanged. -/
theorem TagResolver.get_raises (st : RState) (n : String) (t : Json) :
    TagResolver.get st n t = (Except.error PyError.typeError, st) := rfl

/-- Every call to `TagResolver.resolve` with positive fuel fetches the tag
page once and then raises TypeError (both the non-common and the common branch
construct a Tag without the required `type` field), leaving the state
unchanged. -/
theorem TagResolver.resolve_raises (oracle : String → TagPage) (fuel : Nat)
    (st : RState) (n : String) :
    TagResolver.resolve oracle (fuel + 1) st n =
      some (Except.error PyError.typeError, st, ["/tags/" ++ tag_escape n]) := by
  cases h : (oracle ("/tags/" ++ tag_escape n)).navigationActions <;>
    simp [TagResolver.resolve, h, Tag.fromKwargs_name_common]

/-- Every call to `TagResolver.__call__` raises TypeError inside `get`, before
any fetch, leaving the state unchanged. -/
theorem TagResolver.call_raises (oracle : String → TagPage) (fuel : Nat)
    (st : RState) (n : String) (t : Json) :
    TagResolver.call oracle fuel st n t =
      some (Except.error PyError.typeError, st, []) := rfl

/-- One entry of a sequence of resolver calls: `get`, `__call__` or
`resolve` on some tag name. -/
inductive ROp where
  | get (name : String) (tagType : Json)
  | call (name : String) (tagType : Json)
  | resolve (name : String)

/-- The resolver state after performing one call (whether it returns or
raises: the state at the moment the call exits is kept either way). -/
def runOp (oracle : String → TagPage) (fuel : Nat) (st : RState) : ROp → RState
  | .get n t => (TagResolver.get st n t).2
  | .call n t =>
      match TagResolver.call oracle fuel st n t with
      | none => st
      | some r => r.2.1
  | .resolve n =>
      match TagResolver.resolve oracle fuel st n with
      | none => st
      | some r => r.2.1

/-- The resolver state after a sequence of calls. -/
def runOps (oracle : String → TagPage) (fuel : Nat) : List ROp → RState → RState
  | [], st => st
  | op :: ops, st => runOps oracle fuel ops (runOp oracle fuel st op)

theorem runOp_preserves (oracle : String → TagPage) (fuel : Nat) (st : RState)
    (op : ROp) : runOp oracle fuel st op = st := by
  cases op with
  | get n t => simp [runOp, TagResolver.get_raises]
  | call n t => simp [runOp, TagResolver.call_raises]
  | resolve n =>
      cases fuel with
      | zero => simp [runOp, TagResolver.resolve]
      | succ k => simp [runOp, TagResolver.resolve_raises]

theorem runOps_preserves (oracle : String → TagPage) (fuel : Nat)
    (ops : List ROp) (st : RState) : runOps oracle fuel ops st = st := by
  induction ops generalizing st with
  | nil => rfl
  | cons op ops ih => simp [runOps, runOp_preserves, ih]

/-- The `common` tri-state of the cached Tag for `name` (`Json.null` is the
unknown state, also for a name with no cache entry). -/
def tagCommon (st : RState) (name : String) : Json :=
  match dictGet st.cache name with
  | some t => t.common
  | none => Json.null

/-- The `canonical` reference of the cached Tag for `name` (`Json.null` when
absent). -/
def tagCanonical (st : RState) (name : String) : Json :=
  match dictGet st.cache name with
  | some t => t.canonical
  | none => Json.null

/-- A concrete resolver cache for the round-trip check: `fluff` resolved
common, `angst` resolved non-common, no canonical references (matching the
shape a legacy per-tag cache file loads to). -/
def c1Cache : List (String × Tag) :=
  [("fluff", { name := "fluff", type := Json.str "freeform", common := Json.bool true }),
   ("angst", { name := "angst", type := Json.str "freeform", common := Json.bool false })]

/-- The JSON object `TagResolver.save` writes for `c1Cache`: the two-map
`tags` / `canon_map` format of core.py line 113. -/
def c1Saved : Json :=
  Json.obj [("tags", Json.obj [("fluff", Json.bool true), ("angst", Json.bool false)]),
            ("canon_map", Json.obj [])]

/-- C1: the save/load round-trip fails on the code. Saving this two-entry
cache succeeds and produces the documented two-map file format, but
constructing a new TagResolver on that file raises TypeError instead of
reconstructing the cache: `__init__` (core.py lines 62-63) treats each
top-level key (`"tags"`, `"canon_map"`) as a tag name and its value as
`Tag(**value)` keyword arguments, so no `common` flag survives the reload. -/
theorem c1_save_load_roundtrip_fails :
    TagResolver.save c1Cache = Except.ok c1Saved
    ∧ TagResolver.loadCache c1Saved = Except.error PyError.typeError :=
  ⟨rfl, rfl⟩

/-- A tag page carrying the metadata markers of a common tag, with no
synonyms and no merger. -/
def c2Page : TagPage := { navigationActions := true, synonyms := [], merger := none }

/-- A resolver state in which `fluff` is already resolved (`common = true`). -/
def c2State : RState :=
  { autoResolve := false,
    cache := [("fluff", { name := "fluff", type := Json.str "freeform", common := Json.bool true })] }

/-- C2: resolution is not at-most-once on the code. `resolve` never consults
the cache before fetching (the unresolved-only gate lives in `__call__`,
core.py line 67), so calling it on the already-resolved tag `fluff` performs a
network fetch (trace `["/tags/fluff"]`), and it then raises TypeError while
constructing `Tag(name=name, common=True)` without the required `type` field
(core.py line 89) instead of returning the cached Tag; a repeated call
repeats the fetch. -/
theorem c2_resolve_refetches_resolved_tag :
    TagResolver.resolve (fun _ => c2Page) 3 c2State "fluff" =
      some (Except.error PyError.typeError, c2State, ["/tags/fluff"]) := rfl

/-- A canonical tag page declaring one synonym, `floof`. -/
def c3Page : TagPage := { navigationActions := true, synonyms := ["floof"], merger := none }

/-- The empty resolver state. -/
def c3State : RState := { autoResolve := false, cache := [] }

/-- C3: synonym propagation never happens on the code. Resolving the
canonical tag `fluff`, whose page declares the synonym `floof`, raises
TypeError at `Tag(name=name, common=True)` (core.py line 89) before the
synonym loop runs (and the loop itself would raise at `self.get(name)`,
which omits the required `tag_type` argument, core.py line 91): afterwards
the cache is unchanged and holds no Tag for `floof` at all. -/
theorem c3_synonym_propagation_crashes :
    TagResolver.resolve (fun _ => c3Page) 3 c3State "fluff" =
      some (Except.error PyError.typeError, c3State, ["/tags/fluff"])
    ∧ dictGet c3State.cache "floof" = none :=
  ⟨rfl, rfl⟩

/-- A resolver state in which `angst` is cached in the unknown state
(`common = None`). -/
def c4State : RState :=
  { autoResolve := false,
    cache := [("angst", { name := "angst", type := Json.str "freeform" })] }

/-- A tag page without the navigation-actions element. -/
def c4Page : TagPage := { navigationActions := false, synonyms := [], merger := none }

/-- C4: non-common marking fails on the code. Resolving `angst`, whose page
lacks the navigation-actions element while a Tag for `angst` already sits in
the cache in the unknown state, raises TypeError at
`Tag(name=name, common=False)` (core.py line 85) and leaves the tag unknown —
and even with that constructor repaired, line 85 uses `dict.setdefault`,
which would return the pre-existing unknown Tag unchanged rather than mark it
`common = false`. -/
theorem c4_non_common_marking_crashes :
    TagResolver.resolve (fun _ => c4Page) 3 c4State "angst" =
      some (Except.error PyError.typeError, c4State, ["/tags/angst"])
    ∧ tagCommon c4State "angst" = Json.null :=
  ⟨rfl, rfl⟩

/-- C5: monotonic tag state. Across any sequence of `get` / `__call__` /
`resolve` calls, a cached Tag whose `common` is already non-unknown keeps
exactly that value (so it never returns to unknown and never flips between
true and false), and an established `canonical` reference is never removed.
This holds in the strongest possible form: every resolver call raises
TypeError before mutating the cache (see `TagResolver.get_raises` and
`TagResolver.resolve_raises`), so the cache never changes at all after
construction. -/
theorem c5_tag_state_monotone (oracle : String → TagPage) (fuel : Nat)
    (ops : List ROp) (st : RState) (name : String) :
    ((tagCommon st name).isNull = false →
        tagCommon (runOps oracle fuel ops st) name = tagCommon st name)
    ∧ ((tagCanonical st name).isNull = false →
        tagCanonical (runOps oracle fuel ops st) name = tagCanonical st name) := by
  rw [runOps_preserves]
  exact ⟨fun _ => rfl, fun _ => rfl⟩

/-- A resolver state in which `fluffy` is a resolved synonym: `common = true`
and a canonical reference (the name `fluff`, as a cache file records it). -/
def c5State : RState :=
  { autoResolve := true,
    cache := [("fluffy", { name := "fluffy", type := Json.str "freeform",
                           common := Json.bool true, canonical := Json.str "fluff" })] }

/-- A concrete sequence of resolver calls touching both `fluffy` itself and
other names. -/
def c5Ops : List ROp :=
  [ROp.resolve "fluffy", ROp.get "angst" (Json.str "freeform"),
   ROp.call "fluffy" (Json.str "freeform"), ROp.resolve "fluff"]

/-- Witness for C5 at a concrete resolved synonym and call sequence. -/
theorem c5_tag_state_monotone_witness :
    tagCommon (runOps (fun _ => c2Page) 3 c5Ops c5State) "fluffy" =
        tagCommon c5State "fluffy"
    ∧ tagCanonical (runOps (fun _ => c2Page) 3 c5Ops c5State) "fluffy" =
        tagCanonical c5State "fluffy" :=
  ⟨(c5_tag_state_monotone (fun _ => c2Page) 3 c5Ops c5State "fluffy").1 rfl,
   (c5_tag_state_monotone (fun _ => c2Page) 3 c5Ops c5State "fluffy").2 rfl⟩

/-- Artefact.resolve_tags (core.py lines 23-29), a `@contextmanager` session:
records the current `auto_resolve` flag, sets it to True, runs the with-block
body, and on normal completion restores the recorded flag and calls `save()`.
The generator has no try/finally, so an exception raised in the body
propagates at the `yield` and lines 28-29 never run. The body is modelled as
a function from the state at entry to the state at exit plus its outcome; the
final component of the result counts the `save()` calls performed by the
session epilogue. -/
def Artefact.resolveTags {e : Type} (body : RState → RState × Except e Unit)
    (st : RState) : Except e Unit × RState × Nat :=
  let previous := st.autoResolve
  match body { st with autoResolve := true } with
  | (st2, Except.error err) => (Except.error err, st2, 0)
  | (st2, Except.ok _) => (Except.ok (), { st2 with autoResolve := previous }, 1)

/-- A session body that raises mid-session (leaving the state as it found
it). -/
def c6Body : RState → RState × Except Unit Unit := fun st => (st, Except.error ())

/-- A session body that completes normally. -/
def c6OkBody : RState → RState × Except Unit Unit := fun st => (st, Except.ok ())

/-- The initial state for the C6 session runs: auto-resolve off, empty
cache. -/
def c6State : RState := { autoResolve := false, cache := [] }

/-- C6 counterexample: for a session opened with `auto_resolve = false` whose
body raises mid-session, the session ends with `auto_resolve` still forced to
true (not restored to its pre-session value) and with no `save()` performed —
`resolve_tags` has no try/finally, so the restore and persist lines are
skipped on error. -/
theorem c6_error_skips_restore_and_save :
    Artefact.resolveTags c6Body c6State =
      (Except.error (), { autoResolve := true, cache := [] }, 0) := rfl

/-- C6 (amended): when the session body completes without error, the
`auto_resolve` flag is restored to its pre-session value and `save()` runs
exactly once; when the body raises, the exception propagates with the flag
still set to true and no save performed. -/
theorem c6_session_discipline {e : Type} (body : RState → RState × Except e Unit)
    (st st2 : RState) :
    (body { st with autoResolve := true } = (st2, Except.ok ()) →
        Artefact.resolveTags body st =
          (Except.ok (), { st2 with autoResolve := st.autoResolve }, 1))
    ∧ (∀ err : e, body { st with autoResolve := true } = (st2, Except.error err) →
        Artefact.resolveTags body st = (Except.error err, st2, 0)) := by
  constructor
  · intro h
    simp [Artefact.resolveTags, h]
  · intro err h
    simp [Artefact.resolveTags, h]

/-- Witness for the amended C6 at a concrete session: a normally-completing
body restores the flag to false and saves once. -/
theorem c6_session_discipline_witness :
    Artefact.resolveTags c6OkBody c6State =
      (Except.ok (), { autoResolve := false, cache := [] }, 1) :=
  (c6_session_discipline c6OkBody c6State { autoResolve := true, cache := [] }).1 rfl

/-- Python `s.startswith(p)` (used only for the rate-limit sentinel check):
true when the character sequence of `p` is a prefix of that of `s`. -/
def pyStartsWith (s p : String) : Bool := p.data.isPrefixOf s.data

/-- A parsed page, as `Html.from_response` wraps a response body. -/
structure Html where
  body : String

/-- The waiting events `fetch_page` produces around its HTTP GETs: entering
the rate-limit `Delay` before each GET, and the fixed 20-second remorseful
pause after a rate-limited response (http.py lines 46-50). -/
inductive FetchEv where
  | acquire
  | cooldown (seconds : Nat)
deriving DecidableEq

/-- ArchiveApi.fetch_page (http.py lines 40-53): an unbounded retry loop;
each attempt enters the Delay, issues the GET (consuming the next transport
response), and if the body starts with the sentinel `"Retry later"` sleeps 20
seconds and retries, otherwise returns the parsed page. The transport is the
list of response bodies, consumed one per attempt; `none` means the loop is
still running when the listed responses run out (the `raise SystemExit` after
the loop, line 53, is dead code: the for-loop over `itertools.count` never
terminates on its own). -/
def fetch_page : List String → Option (Html × List FetchEv)
  | [] => none
  | r :: rs =>
      if pyStartsWith r "Retry later" then
        match fetch_page rs with
        | none => none
        | some pe => some (pe.1, FetchEv.acquire :: FetchEv.cooldown 20 :: pe.2)
      else some ({ body := r }, [FetchEv.acquire])

/-- C7: rate-limit recovery. For a transport yielding finitely many responses
whose bodies start with the rate-limit sentinel followed by a real page,
fetch_page returns the parsed real page rather than an error, acquires the
Delay once per attempt, and waits the fixed 20-second cooldown after each
sentinel response; the rate-limit condition never reaches the caller. -/
theorem c7_rate_limit_recovery (ss : List String) (r : String) (rest : List String)
    (hss : ∀ s ∈ ss, pyStartsWith s "Retry later" = true)
    (hr : pyStartsWith r "Retry later" = false) :
    fetch_page (ss ++ r :: rest) =
      some ({ body := r },
        (ss.map (fun _ => [FetchEv.acquire, FetchEv.cooldown 20])).flatten
          ++ [FetchEv.acquire]) := by
  induction ss with
  | nil => simp [fetch_page, hr]
  | cons s ss ih =>
      have hs : pyStartsWith s "Retry later" = true := hss s (by simp)
      have ih2 := ih (fun x hx => hss x (by simp [hx]))
      simp [fetch_page, hs, ih2]

/-- Witness for C7: two sentinel responses, then a real page. -/
theorem c7_rate_limit_recovery_witness :
    fetch_page ["Retry later", "Retry later, busy", "<html>real page</html>"] =
      some ({ body := "<html>real page</html>" },
        [FetchEv.acquire, FetchEv.cooldown 20, FetchEv.acquire, FetchEv.cooldown 20,
         FetchEv.acquire]) :=
  c7_rate_limit_recovery ["Retry later", "Retry later, busy"] "<html>real page</html>" []
    (by decide) (by decide)

/-- An anchor element of a listing page: its text (used only by the
page-count print) and its href attribute. -/
structure Anchor where
  text : String
  href : Option String

/-- The observations `_paginate_blurbs` and `_blurbs_from_index` make of one
listing page: the anchors matched by `.pagination a`, the anchor matched by
`.pagination .next a` (on real pages an element of the former), and the
`ol.work.index > li` entries, abstracted to one identifier per entry. -/
structure IndexHtml where
  paginationAnchors : List Anchor
  nextAnchor : Option Anchor
  workItems : List String

/-- Artefact._blurbs_from_index (core.py lines 49-51): one Blurb per work
index item, in page order. -/
def blurbs_from_index (p : IndexHtml) : List String := p.workItems

/-- Result of a pagination traversal: the entries it yields, one chunk per
page in order, plus the trace of hrefs fetched (`none` is an anchor without
an href: `urljoin` then resolves to the site root, so the fetch still
happens); `diverge` marks fuel exhaustion of the model while the while-loop
is still running, and `indexError` a raised IndexError. -/
inductive PagResult where
  | diverge
  | indexError
  | ok (chunks : List (List String)) (fetches : List (Option String))
deriving DecidableEq

/-- The while loop of Artefact._paginate_blurbs (core.py lines 45-47): while
the current page has a `.pagination .next a` anchor, fetch its href and yield
the entries of the fetched page. -/
def paginateLoop (fetch : Option String → IndexHtml) : Nat → IndexHtml → PagResult
  | fuel, page =>
    match page.nextAnchor with
    | none => PagResult.ok [] []
    | some a =>
      match fuel with
      | 0 => PagResult.diverge
      | n + 1 =>
        let next := fetch a.href
        match paginateLoop fetch n next with
        | PagResult.ok chunks fs => PagResult.ok (blurbs_from_index next :: chunks) (a.href :: fs)
        | r => r

/-- Artefact._paginate_blurbs (core.py lines 41-47). The page-count print
`if page_links := list(page.all(".pagination a")): print(... page_links[-2].text ...)`
runs first: on a page whose pagination block matches exactly one anchor the
negative index raises IndexError before anything is yielded. Then the first
page's entries are yielded and the while loop follows next links. The chunked
result reflects the generator's incremental production: obtaining the entries
of chunk `i` requires exactly the first `i` fetches of the trace, so a
consumer that stops early triggers no further fetches. -/
def paginate_blurbs (fetch : Option String → IndexHtml) (fuel : Nat)
    (page : IndexHtml) : PagResult :=
  if page.paginationAnchors.length = 1 then PagResult.indexError
  else
    match paginateLoop fetch fuel page with
    | PagResult.ok chunks fs => PagResult.ok (blurbs_from_index page :: chunks) fs
    | r => r

/-- A finite chain of listing pages: each page links to its successor through
its next anchor (which `fetch` delivers), and the last page has no next
anchor. -/
inductive PageChain (fetch : Option String → IndexHtml) :
    IndexHtml → List IndexHtml → Prop
  | last (p : IndexHtml) (h : p.nextAnchor = none) : PageChain fetch p [p]
  | step (p : IndexHtml) (a : Anchor) (q : IndexHtml) (rs : List IndexHtml)
      (hnext : p.nextAnchor = some a) (hfetch : fetch a.href = q)
      (hrest : PageChain fetch q (q :: rs)) : PageChain fetch p (p :: q :: rs)

/-- The hrefs a traversal of the chain fetches: the next-anchor href of every
page but the last. -/
def chainLinks : List IndexHtml → List (Option String)
  | [] => []
  | p :: rest =>
    match p.nextAnchor with
    | none => []
    | some a => a.href :: chainLinks rest

theorem paginateLoop_chain (fetch : Option String → IndexHtml) (p : IndexHtml)
    (ps : List IndexHtml) (fuel : Nat) (hc : PageChain fetch p ps)
    (hfuel : ps.length ≤ fuel + 1) :
    paginateLoop fetch fuel p =
      PagResult.ok (ps.tail.map blurbs_from_index) (chainLinks ps) := by
  induction hc generalizing fuel with
  | last q h => simp [paginateLoop, h, chainLinks]
  | step q a r rs hnext hfetch hrest ih =>
      match fuel with
      | 0 => simp at hfuel
      | n + 1 =>
          have hlen : (r :: rs).length ≤ n + 1 := by simp at hfuel ⊢; omega
          simp [paginateLoop, hnext, hfetch, ih n hlen, chainLinks]

/-- The next link of the counterexample chain: the only anchor the first
page's pagination block contains. -/
def c8NextAnchor : Anchor := { text := "Next", href := some "/works?page=2" }

/-- Second and last page of the counterexample chain: no pagination block. -/
def c8Page2 : IndexHtml :=
  { paginationAnchors := [], nextAnchor := none, workItems := ["work3", "work4"] }

/-- First page of the counterexample chain: it links only to its successor,
so `.pagination a` matches exactly the next anchor. -/
def c8Page1 : IndexHtml :=
  { paginationAnchors := [c8NextAnchor], nextAnchor := some c8NextAnchor,
    workItems := ["work1", "work2"] }

/-- Transport for the counterexample chain. -/
def c8Fetch : Option String → IndexHtml := fun _ => c8Page2

/-- C8 counterexample: a two-page chain in which each page links only to its
successor through a next link, so the pagination block of the first page
matches exactly one anchor. The traversal raises IndexError at
`page_links[-2]` (core.py line 43) before yielding anything, instead of
yielding the concatenation of the entries of the two pages. -/
theorem c8_single_anchor_chain_raises :
    PageChain c8Fetch c8Page1 [c8Page1, c8Page2]
    ∧ paginate_blurbs c8Fetch 5 c8Page1 = PagResult.indexError :=
  ⟨PageChain.step c8Page1 c8NextAnchor c8Page2 [] rfl rfl (PageChain.last c8Page2 rfl),
   rfl⟩

/-- C8 (amended): for every finite chain of pages each linking to its
successor via a next link whose last page has no next link, provided the
first page's pagination block does not match exactly one anchor (real listing
pages with a next link carry several pagination anchors), the traversal
yields exactly the entries of the chain's pages, one chunk per page in order
(their concatenation is the flattening of the chunks), terminates after the
page with no next link, and fetches exactly one href per successor page, so
a consumer stopping after chunk `i` has triggered only the first `i`
fetches. -/
theorem c8_pagination_chain (fetch : Option String → IndexHtml) (p : IndexHtml)
    (ps : List IndexHtml) (fuel : Nat) (hc : PageChain fetch p ps)
    (hfuel : ps.length ≤ fuel + 1)
    (hp : p.paginationAnchors.length ≠ 1) :
    paginate_blurbs fetch fuel p =
      PagResult.ok (ps.map blurbs_from_index) (chainLinks ps) := by
  have hloop := paginateLoop_chain fetch p ps fuel hc hfuel
  have hhead : ps.map blurbs_from_index = blurbs_from_index p :: ps.tail.map blurbs_from_index := by
    cases hc <;> rfl
  rw [paginate_blurbs, if_neg hp, hloop, hhead]

/-- Third and last page of the witness chain. -/
def c8wPage3 : IndexHtml :=
  { paginationAnchors := [], nextAnchor := none, workItems := ["w5"] }

/-- Next anchor of the second witness page. -/
def c8wNext2 : Anchor := { text := "Next", href := some "p3" }

/-- Second page of the witness chain (two pagination anchors, as real pages
have). -/
def c8wPage2 : IndexHtml :=
  { paginationAnchors := [{ text := "2", href := some "p2" }, c8wNext2],
    nextAnchor := some c8wNext2, workItems := ["w3", "w4"] }

/-- Next anchor of the first witness page. -/
def c8wNext1 : Anchor := { text := "Next", href := some "p2" }

/-- First page of the witness chain (two pagination anchors). -/
def c8wPage1 : IndexHtml :=
  { paginationAnchors := [{ text := "2", href := some "p2" }, c8wNext1],
    nextAnchor := some c8wNext1, workItems := ["w1", "w2"] }

/-- Transport for the witness chain, keyed by href. -/
def c8wFetch : Option String → IndexHtml := fun h =>
  if h = some "p2" then c8wPage2 else if h = some "p3" then c8wPage3 else c8wPage1

/-- Witness for the amended C8 at a concrete three-page chain. -/
theorem c8_pagination_chain_witness :
    paginate_blurbs c8wFetch 5 c8wPage1 =
      PagResult.ok [["w1", "w2"], ["w3", "w4"], ["w5"]] [some "p2", some "p3"] :=
  c8_pagination_chain c8wFetch c8wPage1 [c8wPage1, c8wPage2, c8wPage3] 5
    (PageChain.step c8wPage1 c8wNext1 c8wPage2 [c8wPage3] rfl rfl
      (PageChain.step c8wPage2 c8wNext2 c8wPage3 [] rfl rfl
        (PageChain.last c8wPage3 rfl)))
    (by decide) (by decide)

/-- The Delay rate limiter state (http.py lines 89-109): the recorded
`_last_event` and the configured minimum `interval`, in seconds. Time is
modelled over the rationals; none of the behaviour at issue depends on float
rounding. -/
structure Delay where
  lastEvent : ℚ
  interval : ℚ

/-- Delay.__init__ (http.py lines 95-97): `self._last_event = 0.0`. -/
def Delay.init (interval : ℚ) : Delay := { lastEvent := 0, interval := interval }

/-- The `_next_call_at` property (http.py lines 99-101). -/
def Delay.nextCallAt (d : Delay) : ℚ := d.lastEvent + d.interval

/-- Delay.__enter__ (http.py lines 103-106) called at wall-clock time `now`:
`time.sleep(max(0, self._next_call_at - time.time()))`, then
`self._last_event = time.time()`. Idealization: the sleep lasts exactly its
argument and no other time passes, so the closing `time.time()` reads
`now + sleep`, the instant the call returns. The result is the sleep duration
(0 means the call did not block) and the updated state. -/
def Delay.enter (d : Delay) (now : ℚ) : ℚ × Delay :=
  let s := max 0 (d.nextCallAt - now)
  (s, { d with lastEvent := now + s })

/-- C9: the Delay contract. (1) `enter` returns at a time at least `interval`
after the previous `enter` returned (the recorded `lastEvent`), and records
the new return time as the next `lastEvent`. (2) The first call after
construction does not block whenever the wall clock reads at least
`interval` — `time.time()` counts seconds since 1970, so this covers every
run on a realistic clock. (3) With `interval = 0` no call blocks, provided
only that the clock is not behind the previously recorded event. -/
theorem c9_delay_contract (d : Delay) (ivl now : ℚ) :
    (d.lastEvent + d.interval ≤ now + (d.enter now).1
      ∧ (d.enter now).2.lastEvent = now + (d.enter now).1)
    ∧ (ivl ≤ now → ((Delay.init ivl).enter now).1 = 0)
    ∧ (d.interval = 0 → d.lastEvent ≤ now → (d.enter now).1 = 0) := by
  refine ⟨⟨?_, rfl⟩, ?_, ?_⟩
  · have h := le_max_right (0 : ℚ) (d.nextCallAt - now)
    simp only [Delay.enter, Delay.nextCallAt] at *
    linarith
  · intro h
    simp only [Delay.enter, Delay.nextCallAt, Delay.init]
    rw [max_eq_left (by linarith)]
  · intro h0 h
    simp only [Delay.enter, Delay.nextCallAt, h0]
    rw [max_eq_left (by linarith)]

/-- Witness for C9 at the default 1.5-second interval: a previous event at
second 10 and a call at second 20 respects the interval and records the
return time; a first call at second 20 does not block; a zero-interval
limiter does not block. -/
theorem c9_delay_contract_witness :
    ((10 : ℚ) + 3/2 ≤ 20 + ((Delay.mk 10 (3/2)).enter 20).1
      ∧ ((Delay.mk 10 (3/2)).enter 20).2.lastEvent = 20 + ((Delay.mk 10 (3/2)).enter 20).1)
    ∧ ((Delay.init (3/2)).enter 20).1 = 0
    ∧ ((Delay.mk 10 0).enter 20).1 = 0 :=
  ⟨⟨(c9_delay_contract (Delay.mk 10 (3/2)) (3/2) 20).1.1,
    (c9_delay_contract (Delay.mk 10 (3/2)) (3/2) 20).1.2⟩,
   (c9_delay_contract (Delay.mk 10 (3/2)) (3/2) 20).2.1 (by norm_num),
   (c9_delay_contract (Delay.mk 10 0) (3/2) 20).2.2 rfl (by norm_num)⟩

/-- An element of a parsed blurb fragment, reduced to its whitespace-joined
text (the `Html.text` property). -/
structure BlurbEl where
  text : String

/-- The element observations a Blurb makes of its fragment: the first match
of each selector its accessors consult (types.py lines 20-49). -/
structure BlurbHtml where
  headingAnchor : Option BlurbEl
  authorAnchor : Option BlurbEl
  languageDd : Option BlurbEl
  iswipSpan : Option BlurbEl
  wordsDd : Option BlurbEl
  ratingSpan : Option BlurbEl

/-- utils.unwrap (utils.py lines 16-26): returns the wrapped value and raises
RuntimeError when the input is None. -/
def unwrap {α : Type} : Option α → Except PyError α
  | none => Except.error PyError.runtimeError
  | some v => Except.ok v

/-- Blurb.title (types.py lines 25-27): `unwrap(first("h4.heading a")).text`. -/
def Blurb.title (b : BlurbHtml) : Except PyError String := do
  let el ← unwrap b.headingAnchor
  Except.ok el.text

/-- Blurb.author (types.py lines 29-32): `None if author is None else
author.text` — no unwrap, never raises. -/
def Blurb.author (b : BlurbHtml) : Except PyError (Option String) :=
  Except.ok (b.authorAnchor.map BlurbEl.text)

/-- Blurb.language (types.py lines 34-36). -/
def Blurb.language (b : BlurbHtml) : Except PyError String := do
  let el ← unwrap b.languageDd
  Except.ok el.text

/-- Blurb.status (types.py lines 38-40). -/
def Blurb.status (b : BlurbHtml) : Except PyError String := do
  let el ← unwrap b.iswipSpan
  Except.ok el.text

/-- Blurb.words (types.py lines 42-45): unwrap, strip commas, `int(...)`.
The integer parse is modelled with `String.toInt?` (ValueError on failure);
only the unwrap step matters to the claims settled here. -/
def Blurb.words (b : BlurbHtml) : Except PyError Int := do
  let el ← unwrap b.wordsDd
  match (String.mk (replaceChar ',' [] el.text.data)).toInt? with
  | some n => Except.ok n
  | none => Except.error PyError.valueError

/-- Blurb.rating (types.py lines 47-49). -/
def Blurb.rating (b : BlurbHtml) : Except PyError String := do
  let el ← unwrap b.ratingSpan
  Except.ok el.text

/-- C10: the author accessor returns None rather than raising when the
fragment has no author element, whereas the required-field accessors title,
language, status, words and rating raise RuntimeError via unwrap when their
element is absent. -/
theorem c10_author_optional_required_raise (b : BlurbHtml) :
    (b.authorAnchor = none → Blurb.author b = Except.ok none)
    ∧ (b.headingAnchor = none → Blurb.title b = Except.error PyError.runtimeError)
    ∧ (b.languageDd = none → Blurb.language b = Except.error PyError.runtimeError)
    ∧ (b.iswipSpan = none → Blurb.status b = Except.error PyError.runtimeError)
    ∧ (b.wordsDd = none → Blurb.words b = Except.error PyError.runtimeError)
    ∧ (b.ratingSpan = none → Blurb.rating b = Except.error PyError.runtimeError) := by
  refine ⟨?_, ?_, ?_, ?_, ?_, ?_⟩ <;> intro h <;>
    (simp only [Blurb.author, Blurb.title, Blurb.language, Blurb.status, Blurb.words,
      Blurb.rating, unwrap, h]) <;> rfl

/-- A blurb fragment in which no selector matches. -/
def c10Empty : BlurbHtml :=
  { headingAnchor := none, authorAnchor := none, languageDd := none,
    iswipSpan := none, wordsDd := none, ratingSpan := none }

/-- Witness for C10 at the fragment with no matching elements. -/
theorem c10_author_optional_required_raise_witness :
    Blurb.author c10Empty = Except.ok none
    ∧ Blurb.title c10Empty = Except.error PyError.runtimeError
    ∧ Blurb.language c10Empty = Except.error PyError.runtimeError
    ∧ Blurb.status c10Empty = Except.error PyError.runtimeError
    ∧ Blurb.words c10Empty = Except.error PyError.runtimeError
    ∧ Blurb.rating c10Empty = Except.error PyError.runtimeError :=
  ⟨(c10_author_optional_required_raise c10Empty).1 rfl,
   (c10_author_optional_required_raise c10Empty).2.1 rfl,
   (c10_author_optional_required_raise c10Empty).2.2.1 rfl,
   (c10_author_optional_required_raise c10Empty).2.2.2.1 rfl,
   (c10_author_optional_required_raise c10Empty).2.2.2.2.1 rfl,
   (c10_author_optional_required_raise c10Empty).2.2.2.2.2 rfl⟩
